import Mathlib

/-!
Verification of the subpop plugin registry (`subpop/util.py`, `subpop/hub.py`)
against its natural-language specification.

The Python source is shallowly embedded: filesystem queries become lookups in
an explicit `FS` value, module objects are identified by the natural number
drawn from an allocation counter at their creation, side effects (source
executions, `sys.modules` registration, diagnostics) are threaded through
explicit state records, and Python exceptions become `Except` / `Option`
results.
-/

/-- Result of a successful `os.stat`: the kind of filesystem object found. -/
inductive FileKind where
  | dir
  | regular
  | other
deriving DecidableEq

/-- An explicit filesystem: a finite map from absolute path strings to the
kind of object present at that path.  A path absent from `entries` does not
exist (`os.stat` raises `FileNotFoundError`). -/
structure FS where
  entries : List (String × FileKind)
deriving DecidableEq

/-- `os.stat(p, follow_symlinks=True)`, abstracted: `some k` when `p` exists
with kind `k`, `none` when `os.stat` raises `FileNotFoundError`. -/
def FS.stat (fs : FS) (p : String) : Option FileKind :=
  List.lookup p fs.entries

/-- `os.path.join(a, b)` for the shapes used by the source: `b` is always a
relative path (possibly empty, in which case Python yields a trailing
separator). -/
def pjoin (a b : String) : String :=
  a ++ "/" ++ b

/-- `DyneFinder.identify_mod_type` (util.py lines 215-238).  The source stats
`cand` first; only when that raises `FileNotFoundError` does it stat
`cand + ".py"`.  A stat that succeeds with a non-directory kind falls out of
the `try` block and the function returns `None` implicitly. -/
def identify_mod_type (fs : FS) (cand : String) : Option String :=
  match fs.stat cand with
  | some k => if k = FileKind.dir then some "sub" else none
  | none =>
    match fs.stat (cand ++ ".py") with
    | some k => if k = FileKind.regular then some "plugin" else none
    | none => none

/-- The classification function as the claim words it: directory wins, and
otherwise the unit file `cand + ".py"` decides, regardless of whether `cand`
itself exists as a non-directory. -/
def claimedClassify (fs : FS) (cand : String) : Option String :=
  match fs.stat cand with
  | some FileKind.dir => some "sub"
  | _ =>
    if fs.stat (cand ++ ".py") = some FileKind.regular then some "plugin"
    else none

/-- A filesystem in which the name `x` exists as a regular file and the unit
file `x.py` also exists as a regular file. -/
def fsFileShadow : FS :=
  ⟨[("x", FileKind.regular), ("x.py", FileKind.regular)]⟩

/-- Claim C4, counterexample: when the candidate path exists as a
non-directory (here a regular file `x`) while the unit file `x.py` is an
existing regular file, the code classifies `NotFound` (`none`), whereas the
claim demands `Unit` (`"plugin"`).  The classification therefore is not
"otherwise Unit if the path with .py appended is an existing regular file". -/
theorem C4_counterexample :
    identify_mod_type fsFileShadow "x" = none
    ∧ claimedClassify fsFileShadow "x" = some "plugin"
    ∧ fsFileShadow.stat "x" ≠ some FileKind.dir
    ∧ fsFileShadow.stat ("x" ++ ".py") = some FileKind.regular := by
  refine ⟨rfl, rfl, ?_, rfl⟩
  decide

/-- Claim C4, amended: classification returns `"sub"` when the candidate is
an existing directory; `"plugin"` when the candidate does not exist at all
and the candidate with `.py` appended is an existing regular file; and `none`
in every other case (in particular, a candidate existing as a non-directory
suppresses the unit-file check, while an existing directory always beats a
same-named unit file). -/
theorem C4_amended (fs : FS) (cand : String) :
    identify_mod_type fs cand =
      match fs.stat cand with
      | some FileKind.dir => some "sub"
      | some _ => none
      | none =>
        if fs.stat (cand ++ ".py") = some FileKind.regular then some "plugin"
        else none := by
  unfold identify_mod_type
  cases h : fs.stat cand with
  | none =>
    cases h2 : fs.stat (cand ++ ".py") with
    | none => simp [h2]
    | some k => cases k <;> simp [h2]
  | some k => cases k <;> simp

/-- Python exceptions relevant to manifest loading: `yaml.YAMLError` raised by
`yaml.safe_load` on malformed YAML syntax, and `KeyError` raised explicitly by
`YAMLProjectData.__init__`. -/
inductive PyErr where
  | yamlError
  | keyError (msg : String)
deriving DecidableEq

/-- What `yaml.safe_load` finds in a `subpop.yaml` file: unparseable text,
an empty document (`safe_load` returns `None`), or a mapping carrying an
optional `namespace` string and a `subsystems` table (each subsystem entry
reduced to its `path` value). -/
inductive YamlContent where
  | badSyntax
  | empty
  | mapping (ns : Option String) (subs : List (String × String))
deriving DecidableEq

/-- `subpop.yaml` data held by a `YAMLProjectData` object: the `namespace`
value, the project path (`os.path.dirname(yaml_path)`, i.e. the root
directory), and the `subsystems` table. -/
structure Manifest where
  nsStr : String
  projPath : String
  subsystems : List (String × String)
deriving DecidableEq

/-- `YAMLProjectData.get_subsystem` (util.py lines 110-112). -/
def Manifest.get_subsystem (m : Manifest) (sub_name : String) : Option String :=
  List.lookup sub_name m.subsystems

/-- `YAMLProjectData.resolve_relative_subsystem` (util.py lines 114-144):
empty part list or an unknown top-level subsystem yields `None`; otherwise
the project path, the declared subsystem path and the remaining parts are
joined (an empty remainder leaves a trailing separator, as `os.path.join`
does). -/
def Manifest.resolve_relative_subsystem (m : Manifest) (rel_subparts : List String) :
    Option String :=
  match rel_subparts with
  | [] => none
  | p0 :: rest =>
    match m.get_subsystem p0 with
    | none => none
    | some subpath => some (pjoin (pjoin m.projPath subpath) ("/".intercalate rest))

/-- `YAMLProjectData.__init__` (util.py lines 93-100) for the root directory
`root`: malformed YAML propagates `yaml.YAMLError`; an empty document or a
missing `namespace` key raises `KeyError` (quotation marks of the original
messages elided); otherwise the manifest is built, with `project_path` equal
to the directory holding `subpop.yaml`. -/
def YAMLProjectData_init (root : String) (c : YamlContent) : Except PyErr Manifest :=
  match c with
  | YamlContent.badSyntax => Except.error PyErr.yamlError
  | YamlContent.empty =>
      Except.error (PyErr.keyError ("No YAML found in " ++ pjoin root "subpop.yaml"))
  | YamlContent.mapping none _ =>
      Except.error (PyErr.keyError ("Cannot find namespace in " ++ pjoin root "subpop.yaml"))
  | YamlContent.mapping (some ns) subs =>
      Except.ok { nsStr := ns, projPath := root, subsystems := subs }

/-- One entry of the `PYTHONPATH` search path: the root directory and the
content of its `subpop.yaml`, `none` when no such file exists there. -/
structure Root where
  root : String
  content : Option YamlContent
deriving DecidableEq

/-- Loop body of `DyneFinder.init_yaml_loader` (util.py lines 198-208),
processing the remaining roots in search order.  `dict` accumulates
`yaml_search_dict` (a fresh binding is consed in front, so `List.lookup`
sees the latest assignment, matching Python dict overwrite), and `diags`
accumulates the `logging.warning` diagnostics for caught `KeyError`s.
A `yaml.YAMLError` is not caught and aborts the whole loop. -/
def iylGo (roots : List Root) (dict : List (String × Manifest)) (diags : List String) :
    Except PyErr (List (String × Manifest) × List String) :=
  match roots with
  | [] => Except.ok (dict, diags)
  | r :: rest =>
    match r.content with
    | none => iylGo rest dict diags
    | some c =>
      match YAMLProjectData_init r.root c with
      | Except.ok m => iylGo rest ((m.nsStr, m) :: dict) diags
      | Except.error (PyErr.keyError s) =>
          iylGo rest dict (diags ++ ["Invalid subpop.yaml: " ++ s])
      | Except.error PyErr.yamlError => Except.error PyErr.yamlError

/-- `DyneFinder.init_yaml_loader` (util.py lines 198-208): build
`yaml_search_dict` from the `PYTHONPATH` roots in order. -/
def init_yaml_loader (roots : List Root) :
    Except PyErr (List (String × Manifest) × List String) :=
  iylGo roots [] []

/-- The manifest produced by a root when its `subpop.yaml` exists and parses
into a valid manifest; `none` for an absent or rejected manifest. -/
def okManifest (r : Root) : Option Manifest :=
  match r.content with
  | none => none
  | some c => (YAMLProjectData_init r.root c).toOption

/-- First-some choice on optional manifests. -/
def oalt (a b : Option Manifest) : Option Manifest :=
  match a with
  | some m => some m
  | none => b

@[simp]
theorem oalt_some (m : Manifest) (b : Option Manifest) : oalt (some m) b = some m := rfl

@[simp]
theorem oalt_none_left (b : Option Manifest) : oalt none b = b := rfl

@[simp]
theorem oalt_none_right (a : Option Manifest) : oalt a none = a := by
  cases a <;> rfl

theorem oalt_assoc (a b c : Option Manifest) : oalt (oalt a b) c = oalt a (oalt b c) := by
  cases a <;> rfl

/-- The claim root `r` makes on namespace `ns`: its manifest, when that
manifest is valid and declares exactly that namespace. -/
def claimOf (r : Root) (ns : String) : Option Manifest :=
  match okManifest r with
  | some m => if m.nsStr = ns then some m else none
  | none => none

/-- The manifest of the LAST root in search order claiming namespace `ns`
(`none` when no root claims it). -/
def lastClaim (roots : List Root) (ns : String) : Option Manifest :=
  match roots with
  | [] => none
  | r :: rest => oalt (lastClaim rest ns) (claimOf r ns)

/-- Diagnostics recorded (in order) for roots whose manifest parses but is
empty or lacks `namespace`. -/
def collectDiags (roots : List Root) : List String :=
  roots.filterMap (fun r =>
    match r.content with
    | none => none
    | some c =>
      match YAMLProjectData_init r.root c with
      | Except.error (PyErr.keyError s) => some ("Invalid subpop.yaml: " ++ s)
      | _ => none)

/-- A search path none of whose manifest files is YAML-malformed. -/
def noBadSyntax (roots : List Root) : Prop :=
  ∀ r ∈ roots, r.content ≠ some YamlContent.badSyntax

instance noBadSyntaxDecidable (roots : List Root) : Decidable (noBadSyntax roots) :=
  List.decidableBAll (fun (r : Root) => r.content ≠ some YamlContent.badSyntax) roots

theorem YAMLProjectData_init_yamlError (root : String) (c : YamlContent)
    (h : YAMLProjectData_init root c = Except.error PyErr.yamlError) :
    c = YamlContent.badSyntax := by
  cases c with
  | badSyntax => rfl
  | empty => simp [YAMLProjectData_init] at h
  | mapping nso subs => cases nso <;> simp [YAMLProjectData_init] at h

/-- Behaviour of the `init_yaml_loader` loop on a search path free of
YAML-malformed manifests: it terminates normally, appends exactly the
diagnostics of the discarded manifests, and each namespace resolves to the
manifest of the last root claiming it (falling back to the incoming dict). -/
theorem iylGo_spec :
    ∀ (roots : List Root) (dict : List (String × Manifest)) (diags : List String),
      noBadSyntax roots →
      ∃ d ds, iylGo roots dict diags = Except.ok (d, ds)
        ∧ ds = diags ++ collectDiags roots
        ∧ ∀ ns, List.lookup ns d = oalt (lastClaim roots ns) (List.lookup ns dict) := by
  intro roots
  induction roots with
  | nil =>
    intro dict diags _
    exact ⟨dict, diags, rfl, by simp [collectDiags], fun ns => by simp [lastClaim]⟩
  | cons r rest ih =>
    intro dict diags hnb
    have hnb' : noBadSyntax rest := fun x hx => hnb x (List.mem_cons_of_mem _ hx)
    have hr : r.content ≠ some YamlContent.badSyntax := hnb r (List.mem_cons_self _ _)
    cases hc : r.content with
    | none =>
      obtain ⟨d, ds, h1, h2, h3⟩ := ih dict diags hnb'
      refine ⟨d, ds, ?_, ?_, ?_⟩
      · simpa only [iylGo, hc] using h1
      · rw [h2]; congr 1; simp [collectDiags, hc]
      · intro ns
        rw [h3 ns]
        simp only [lastClaim, claimOf, okManifest, hc]
        simp
    | some c =>
      cases hinit : YAMLProjectData_init r.root c with
      | ok m =>
        obtain ⟨d, ds, h1, h2, h3⟩ := ih ((m.nsStr, m) :: dict) diags hnb'
        refine ⟨d, ds, ?_, ?_, ?_⟩
        · simpa only [iylGo, hc, hinit] using h1
        · rw [h2]; congr 1; simp [collectDiags, hc, hinit]
        · intro ns
          rw [h3 ns]
          simp only [lastClaim, claimOf, okManifest, hc, hinit, Except.toOption,
            oalt_assoc]
          congr 1
          by_cases hns : m.nsStr = ns
          · subst hns; simp [List.lookup]
          · have hbe : (ns == m.nsStr) = false := by
              rw [beq_eq_false_iff_ne]
              exact fun hh => hns hh.symm
            simp [List.lookup, hbe, hns]
      | error e =>
        cases e with
        | yamlError =>
          rw [YAMLProjectData_init_yamlError _ _ hinit] at hc
          exact absurd hc hr
        | keyError s =>
          obtain ⟨d, ds, h1, h2, h3⟩ :=
            ih dict (diags ++ ["Invalid subpop.yaml: " ++ s]) hnb'
          refine ⟨d, ds, ?_, ?_, ?_⟩
          · simpa only [iylGo, hc, hinit] using h1
          · rw [h2]; simp [collectDiags, hc, hinit]
          · intro ns
            rw [h3 ns]
            simp only [lastClaim, claimOf, okManifest, hc, hinit, Except.toOption]
            simp

theorem lastClaim_mem :
    ∀ (roots : List Root) (ns : String) (m : Manifest),
      lastClaim roots ns = some m → ∃ r ∈ roots, okManifest r = some m := by
  intro roots
  induction roots with
  | nil => intro ns m h; simp [lastClaim] at h
  | cons r rest ih =>
    intro ns m h
    rw [lastClaim] at h
    cases hlc : lastClaim rest ns with
    | some m' =>
      rw [hlc] at h
      simp only [oalt_some, Option.some.injEq] at h
      obtain ⟨r', hr', hok⟩ := ih ns m' hlc
      exact ⟨r', List.mem_cons_of_mem _ hr', h ▸ hok⟩
    | none =>
      rw [hlc] at h
      simp only [oalt_none_left, claimOf] at h
      cases hok : okManifest r with
      | none => rw [hok] at h; simp at h
      | some m'' =>
        rw [hok] at h
        by_cases hns : m''.nsStr = ns
        · simp only [hns, if_pos, Option.some.injEq] at h
          exact ⟨r, List.mem_cons_self _ _, h ▸ hok⟩
        · simp [hns] at h

/-- Manifest of root `A`, claiming namespace `org.foo` with subsystem table
`sys -> subsA`. -/
def manifestA3 : Manifest :=
  { nsStr := "org.foo", projPath := "/rootA", subsystems := [("sys", "subsA")] }

/-- Manifest of root `B`, claiming the same namespace `org.foo` with a
different subsystem table `sys -> subsB`. -/
def manifestB3 : Manifest :=
  { nsStr := "org.foo", projPath := "/rootB", subsystems := [("sys", "subsB")] }

/-- Search root `A` (earlier in search order). -/
def rootA3 : Root :=
  { root := "/rootA", content := some (YamlContent.mapping (some "org.foo") [("sys", "subsA")]) }

/-- Search root `B` (later in search order). -/
def rootB3 : Root :=
  { root := "/rootB", content := some (YamlContent.mapping (some "org.foo") [("sys", "subsB")]) }

/-- Claim C3, counterexample: with roots `[A, B]` in search order both
claiming namespace `org.foo`, `init_yaml_loader` ends with `B`'s binding in
front of `A`'s, so the namespace lookup resolution uses yields `B`'s
manifest — whose subsystem mapping differs from `A`'s — refuting "the earlier
root in search order wins and the later manifest is ignored". -/
theorem C3_counterexample :
    init_yaml_loader [rootA3, rootB3] =
      Except.ok ([("org.foo", manifestB3), ("org.foo", manifestA3)], [])
    ∧ List.lookup "org.foo" [("org.foo", manifestB3), ("org.foo", manifestA3)] =
        some manifestB3
    ∧ manifestB3.subsystems ≠ manifestA3.subsystems := by
  refine ⟨rfl, rfl, ?_⟩
  decide

/-- Claim C3, amended: when several roots in the search path claim the same
namespace, the LATER root in search order wins — after `init_yaml_loader`
succeeds, looking a namespace up in `yaml_search_dict` yields the manifest of
the last root in search order claiming it, the earlier manifests being
overwritten silently. -/
theorem C3_amended (roots : List Root) (ns : String) (h : noBadSyntax roots) :
    ∃ d ds, init_yaml_loader roots = Except.ok (d, ds)
      ∧ List.lookup ns d = lastClaim roots ns := by
  obtain ⟨d, ds, h1, _, h3⟩ := iylGo_spec roots [] [] h
  refine ⟨d, ds, h1, ?_⟩
  rw [h3 ns]
  simp [List.lookup]

/-- Witness for `C3_amended` at the two-root search path of the
counterexample. -/
theorem C3_amended_witness :
    noBadSyntax [rootA3, rootB3]
    ∧ ∃ d ds, init_yaml_loader [rootA3, rootB3] = Except.ok (d, ds)
        ∧ List.lookup "org.foo" d = lastClaim [rootA3, rootB3] "org.foo" :=
  ⟨by decide, C3_amended [rootA3, rootB3] "org.foo" (by decide)⟩

/-- A search root whose `subpop.yaml` is syntactically malformed YAML. -/
def rootBad7 : Root :=
  { root := "/rootBad", content := some YamlContent.badSyntax }

/-- Claim C7, counterexample: a root whose manifest fails YAML parsing makes
`init_yaml_loader` propagate the parser error (only `KeyError` is caught), so
manifest-store construction DOES fail because of a malformed manifest in one
root. -/
theorem C7_counterexample :
    init_yaml_loader [rootBad7] = Except.error PyErr.yamlError := rfl

/-- Claim C7, amended: for roots whose manifest parses as YAML but is empty
or lacks the required `namespace` field, loading records a diagnostic and
discards the manifest, and every namespace binding produced comes from a
root with a well-formed manifest (malformed roots claim no namespace);
construction succeeds whenever no root has a YAML-syntax-malformed manifest,
but a YAML parse error in any one root aborts construction. -/
theorem C7_amended (roots : List Root) (h : noBadSyntax roots) :
    ∃ d ds, init_yaml_loader roots = Except.ok (d, ds)
      ∧ ds = collectDiags roots
      ∧ ∀ ns m, List.lookup ns d = some m → ∃ r ∈ roots, okManifest r = some m := by
  obtain ⟨d, ds, h1, h2, h3⟩ := iylGo_spec roots [] [] h
  refine ⟨d, ds, h1, by simpa using h2, ?_⟩
  intro ns m hm
  rw [h3 ns] at hm
  simp only [List.lookup] at hm
  apply lastClaim_mem roots ns m
  cases hlc : lastClaim roots ns with
  | none => rw [hlc] at hm; simp at hm
  | some m' => rw [hlc] at hm; simpa using hm

/-- A root holding a well-formed manifest for namespace `org.g`. -/
def rootGood7 : Root :=
  { root := "/rootGood", content := some (YamlContent.mapping (some "org.g") []) }

/-- A root whose `subpop.yaml` parses to an empty document. -/
def rootEmpty7 : Root :=
  { root := "/rootEmpty", content := some YamlContent.empty }

/-- Witness for `C7_amended` at a search path with one well-formed and one
empty manifest. -/
theorem C7_amended_witness :
    noBadSyntax [rootGood7, rootEmpty7]
    ∧ ∃ d ds, init_yaml_loader [rootGood7, rootEmpty7] = Except.ok (d, ds)
        ∧ ds = collectDiags [rootGood7, rootEmpty7]
        ∧ ∀ ns m, List.lookup ns d = some m →
            ∃ r ∈ [rootGood7, rootEmpty7], okManifest r = some m :=
  ⟨by decide, C7_amended [rootGood7, rootEmpty7] (by decide)⟩

/-- Module-allocation state: `nextId` numbers every module object created
(two module objects are identical exactly when they carry the same number),
and `execLog` records, in order, the source files executed by a loader
(each `loader.exec_module` appends one entry). -/
structure LoadState where
  nextId : Nat
  execLog : List String
deriving DecidableEq

/-- Interpreter state seen by the import machinery: the allocation state and
`sys.modules` (module ids keyed by fully-qualified name; fresh registrations
are consed in front, so `List.lookup` sees the latest assignment). -/
structure ImportState where
  ls : LoadState
  sysModules : List (String × Nat)
deriving DecidableEq

/-- `DyneFinder` (util.py lines 175-208): the canonical plugin path and the
`yaml_search_dict` built by `init_yaml_loader`. -/
structure DyneFinder where
  plugin_path : String
  yaml_search_dict : List (String × Manifest)
deriving DecidableEq

/-- The class attribute `DyneFinder.prefix` (util.py line 186); renamed here
because its original name clashes with Lean syntax. -/
def dynePfx : String := "dyne"

/-- `str.startswith` on character lists: does the first list begin with the
second? -/
def listStarts : List Char → List Char → Bool
  | _, [] => true
  | [], _ :: _ => false
  | c :: cs, d :: ds => c == d && listStarts cs ds

/-- Python `s.startswith(pat)`, modelled on the underlying character
lists so that it evaluates inside the kernel. -/
def strStarts (s pat : String) : Bool :=
  listStarts s.data pat.data

/-- Helper for `strSplitDot`: splits the remaining characters at every dot,
`acc` holding the (reversed) characters of the current segment. -/
def splitDotGo : List Char → List Char → List String
  | [], acc => [String.mk acc.reverse]
  | c :: cs, acc =>
    if c == '.' then String.mk acc.reverse :: splitDotGo cs []
    else splitDotGo cs (c :: acc)

/-- Python `s.split(".")`, modelled on the underlying character list so that
it evaluates inside the kernel (`"a.b".split(".") = ["a", "b"]`,
`"dyne".split(".") = ["dyne"]`). -/
def strSplitDot (s : String) : List String :=
  splitDotGo s.data []

/-- Python `s.endswith(pat)`, modelled on the underlying character lists. -/
def strEnds (s pat : String) : Bool :=
  listStarts s.data.reverse pat.data.reverse

/-- Python `s[:-k]` for `k ≤ len(s)`: drop the last `k` characters. -/
def strDropRight (s : String) (k : Nat) : String :=
  String.mk (s.data.take (s.data.length - k))

/-- `DyneFinder.find_module` (util.py lines 210-213): the finder claims
`fullname` (returning itself) exactly when it equals the dyne namespace name
or starts with it followed by a dot; otherwise it returns `None`. -/
def DyneFinder.find_module (f : DyneFinder) (fullname : String) : Option DyneFinder :=
  if fullname == dynePfx || strStarts fullname (dynePfx ++ ".") then some f else none

/-- `DyneFinder.load_module` (util.py lines 240-280).  The fully-qualified
name is split on dots with the leading `dyne` dropped; short names become
plain empty modules; otherwise the three-segment namespace is resolved
through `yaml_search_dict` when claimed there (a failed
`resolve_relative_subsystem` raises `ModuleNotFoundError`), or joined onto
the canonical plugin path.  The candidate is classified by
`identify_mod_type`: a plugin executes its source file (appending to
`execLog`), a subsystem directory allocates a `PluginDirectory` module
without executing anything, and anything else raises `ModuleNotFoundError`.
Every successful branch assigns the new module into `sys.modules` under
`fullname`; note that this method never consults `sys.modules` before
re-executing.  (Exception messages are paraphrased without apostrophes.) -/
def DyneFinder.load_module (f : DyneFinder) (fs : FS) (fullname : String)
    (ist : ImportState) : Except String (Nat × ImportState) :=
  let full_split := (strSplitDot fullname).drop 1
  if fullname = dynePfx ∨ full_split.length < 4 then
    Except.ok (ist.ls.nextId,
      { ls := { nextId := ist.ls.nextId + 1, execLog := ist.ls.execLog },
        sysModules := (fullname, ist.ls.nextId) :: ist.sysModules })
  else
    let ns_relpath := ".".intercalate (full_split.take 3)
    let cand? :=
      match List.lookup ns_relpath f.yaml_search_dict with
      | some proj => proj.resolve_relative_subsystem (full_split.drop 3)
      | none =>
          some (pjoin f.plugin_path
            (ns_relpath ++ "/" ++ "/".intercalate (full_split.drop 3)))
    match cand? with
    | none => Except.error ("DyneFinder could not find " ++ fullname)
    | some cand =>
      match identify_mod_type fs cand with
      | some "plugin" =>
        Except.ok (ist.ls.nextId,
          { ls := { nextId := ist.ls.nextId + 1,
                    execLog := ist.ls.execLog ++ [cand ++ ".py"] },
            sysModules := (fullname, ist.ls.nextId) :: ist.sysModules })
      | some "sub" =>
        Except.ok (ist.ls.nextId,
          { ls := { nextId := ist.ls.nextId + 1, execLog := ist.ls.execLog },
            sysModules := (fullname, ist.ls.nextId) :: ist.sysModules })
      | _ =>
        Except.error
          ("DyneFinder could not find the specified plugin or subsystem inside "
            ++ ns_relpath)

/-- The `import` statement semantics on the caller side of the finder
protocol (CPython import machinery, not repository code): an import first
consults `sys.modules` and only on a miss asks the installed meta-path
finder, so caching across repeated imports lives in this layer. -/
def importModule (f : DyneFinder) (fs : FS) (fullname : String)
    (ist : ImportState) : Except String (Nat × ImportState) :=
  match List.lookup fullname ist.sysModules with
  | some mid => Except.ok (mid, ist)
  | none =>
    match f.find_module fullname with
    | some f2 => f2.load_module fs fullname ist
    | none => Except.error ("No module named " ++ fullname)

theorem load_module_registers (f : DyneFinder) (fs : FS) (fullname : String)
    (ist : ImportState) (mid : Nat) (ist' : ImportState)
    (h : f.load_module fs fullname ist = Except.ok (mid, ist')) :
    List.lookup fullname ist'.sysModules = some mid := by
  unfold DyneFinder.load_module at h
  dsimp only at h
  split at h
  · simp only [Except.ok.injEq, Prod.mk.injEq] at h
    obtain ⟨h1, h2⟩ := h
    subst h1
    subst h2
    simp [List.lookup]
  · split at h
    · simp at h
    · split at h
      · simp only [Except.ok.injEq, Prod.mk.injEq] at h
        obtain ⟨h1, h2⟩ := h
        subst h1
        subst h2
        simp [List.lookup]
      · simp only [Except.ok.injEq, Prod.mk.injEq] at h
        obtain ⟨h1, h2⟩ := h
        subst h1
        subst h2
        simp [List.lookup]
      · simp at h

/-- Claim C10: `DyneFinder.find_module` claims exactly the dyne namespace —
it returns the finder itself if and only if the requested name equals
`dyne` or starts with `dyne.`, and returns `None` for every other name
(so installing the finder never intercepts ordinary imports). -/
theorem C10_find_module (f : DyneFinder) (n : String) :
    (f.find_module n = some f ↔ (n = "dyne" ∨ strStarts n "dyne." = true))
    ∧ (¬(n = "dyne" ∨ strStarts n "dyne." = true) → f.find_module n = none) := by
  have he : f.find_module n =
      if (n == "dyne" || strStarts n "dyne.") = true then some f else none := rfl
  by_cases hb : (n == "dyne" || strStarts n "dyne.") = true
  · rw [he, if_pos hb]
    have hP : n = "dyne" ∨ strStarts n "dyne." = true := by
      simpa using hb
    exact ⟨⟨fun _ => hP, fun _ => rfl⟩, fun hn => absurd hP hn⟩
  · rw [he, if_neg hb]
    have hP : ¬(n = "dyne" ∨ strStarts n "dyne." = true) := by
      intro hP
      apply hb
      rcases hP with h | h
      · simp [h]
      · simp [h]
    exact ⟨⟨fun h => Option.noConfusion h, fun h => absurd h hP⟩, fun _ => rfl⟩

/-- A concrete finder used to witness `C10_find_module`. -/
def finderC10 : DyneFinder :=
  { plugin_path := "/pp", yaml_search_dict := [] }

/-- Witness for `C10_find_module`: the finder claims a `dyne.`-qualified name
and declines both an ordinary module and a name merely beginning with the
letters `dyne`. -/
theorem C10_find_module_witness :
    finderC10.find_module "dyne.org.foo.bar.baz" = some finderC10
    ∧ finderC10.find_module "os" = none
    ∧ finderC10.find_module "dynex" = none :=
  ⟨(C10_find_module finderC10 "dyne.org.foo.bar.baz").1.mpr (Or.inr (by decide)),
   (C10_find_module finderC10 "os").2 (by decide),
   (C10_find_module finderC10 "dynex").2 (by decide)⟩

/-- Events observable while `load_plugin` processes one unit, in program
order: a name bound into the fresh module namespace, the execution of the
unit source, the `mod.MODEL = model` assignment, and the call of a module
`__init__` function. -/
inductive LoadEvent where
  | bindName (n : String)
  | execSource (path : String)
  | setMODEL
  | callInit
deriving DecidableEq, BEq

/-- The only behavioural trait of a unit source file that `load_plugin`
inspects: whether executing it defines a module-level `__init__` function. -/
structure PluginSource where
  definesInit : Bool
deriving DecidableEq

/-- A loaded module object: its identity, its dotted name, and its `MODEL`
attribute. -/
structure PyModule where
  mid : Nat
  modName : String
  MODEL : Option Nat
deriving DecidableEq

/-- The attributes `types.ModuleType(name)` pre-binds in a fresh module
namespace: only the standard module dunders. -/
def moduleDefaultNames : List String :=
  ["__name__", "__doc__", "__package__", "__loader__", "__spec__"]

/-- `load_plugin` (util.py lines 12-62): builds a fresh `ModuleType` named
`hub.<name>` (namespace holding only the default dunders), executes the
source file into it, assigns `mod.MODEL = model` AFTER execution, and then
calls `__init__()` when the executed source defined one.  Returns the module
together with the ordered event trace of the call. -/
def load_plugin (path name : String) (src : PluginSource) (model : Option Nat)
    (st : LoadState) : (PyModule × List LoadEvent) × LoadState :=
  let events :=
    moduleDefaultNames.map LoadEvent.bindName
      ++ [LoadEvent.execSource path, LoadEvent.setMODEL]
      ++ (if src.definesInit then [LoadEvent.callInit] else [])
  let mod : PyModule := { mid := st.nextId, modName := "hub." ++ name, MODEL := model }
  ((mod, events),
   { nextId := st.nextId + 1, execLog := st.execLog ++ [path] })

/-- Claim C6 is a bug in the code: evaluating the embedded `load_plugin` on a
unit (here one that does declare an initializer and is given a model) shows
that the namespace in which the source executes holds only the module
dunders — no ambient `hub` reference and no configuration handle is ever
bound, and the `MODEL` assignment happens strictly after source execution —
although both the claim and the docstring of `load_plugin` promise the Hub
is injected into the unit globals before execution. -/
theorem C6_bug_eval :
    ((load_plugin "/t/p.py" "p" ⟨true⟩ (some 1) ⟨0, []⟩).1).2 =
      moduleDefaultNames.map LoadEvent.bindName
        ++ [LoadEvent.execSource "/t/p.py", LoadEvent.setMODEL, LoadEvent.callInit]
    ∧ (((load_plugin "/t/p.py" "p" ⟨true⟩ (some 1) ⟨0, []⟩).1).2.contains
        (LoadEvent.bindName "hub")) = false
    ∧ moduleDefaultNames.contains "hub" = false :=
  ⟨rfl, by decide, by decide⟩

/-- Claim C2: caching discipline is split across layers.  `load_plugin`
called twice on the same path allocates two distinct module objects and
executes the source twice (no caching in the loader), while a second import
of the same fully-qualified unit name through the registered finder is
answered from `sys.modules` — it returns the identical module and leaves the
interpreter state untouched. -/
theorem C2_load_discipline (p n : String) (src : PluginSource)
    (model : Option Nat) (st : LoadState) (f : DyneFinder) (fs : FS)
    (nm : String) (ist ist1 : ImportState) (mid : Nat)
    (h : importModule f fs nm ist = Except.ok (mid, ist1)) :
    ((load_plugin p n src model st).1.1).mid ≠
      ((load_plugin p n src model ((load_plugin p n src model st).2)).1.1).mid
    ∧ ((load_plugin p n src model ((load_plugin p n src model st).2)).2).execLog =
        st.execLog ++ [p, p]
    ∧ importModule f fs nm ist1 = Except.ok (mid, ist1) := by
  refine ⟨?_, ?_, ?_⟩
  · simp only [load_plugin]
    omega
  · simp [load_plugin]
  · have hreg : List.lookup nm ist1.sysModules = some mid := by
      unfold importModule at h
      cases hl : List.lookup nm ist.sysModules with
      | some m0 =>
        rw [hl] at h
        simp only [Except.ok.injEq, Prod.mk.injEq] at h
        obtain ⟨h1, h2⟩ := h
        subst h1
        subst h2
        exact hl
      | none =>
        rw [hl] at h
        cases hf : f.find_module nm with
        | none => rw [hf] at h; simp at h
        | some f2 =>
          rw [hf] at h
          exact load_module_registers f2 fs nm ist mid ist1 h
    unfold importModule
    rw [hreg]

/-- A concrete finder with an empty `yaml_search_dict` (no `PYTHONPATH`
projects), used to witness `C2_load_discipline`. -/
def finderC2 : DyneFinder :=
  { plugin_path := "/pp", yaml_search_dict := [] }

/-- A filesystem holding exactly one unit file under the canonical plugin
path, used to witness `C2_load_discipline`. -/
def fsC2 : FS :=
  ⟨[("/pp/org.funtoo.powerbus/system/foo.py", FileKind.regular)]⟩

/-- The interpreter state after the first import of
`dyne.org.funtoo.powerbus.system.foo` through `finderC2` from a pristine
state: one execution happened and the unit is in `sys.modules`. -/
def istC2one : ImportState :=
  { ls := { nextId := 1, execLog := ["/pp/org.funtoo.powerbus/system/foo.py"] },
    sysModules := [("dyne.org.funtoo.powerbus.system.foo", 0)] }

/-- Witness for `C2_load_discipline`: concrete double `load_plugin` call and
concrete repeated import of the same unit. -/
theorem C2_load_discipline_witness :
    ((load_plugin "/a/b.py" "b" ⟨false⟩ none ⟨0, []⟩).1.1).mid ≠
      ((load_plugin "/a/b.py" "b" ⟨false⟩ none
        ((load_plugin "/a/b.py" "b" ⟨false⟩ none ⟨0, []⟩).2)).1.1).mid
    ∧ ((load_plugin "/a/b.py" "b" ⟨false⟩ none
        ((load_plugin "/a/b.py" "b" ⟨false⟩ none ⟨0, []⟩).2)).2).execLog =
        ([] : List String) ++ ["/a/b.py", "/a/b.py"]
    ∧ importModule finderC2 fsC2 "dyne.org.funtoo.powerbus.system.foo" istC2one =
        Except.ok (0, istC2one) :=
  C2_load_discipline "/a/b.py" "b" ⟨false⟩ none ⟨0, []⟩ finderC2 fsC2
    "dyne.org.funtoo.powerbus.system.foo" ⟨⟨0, []⟩, []⟩ istC2one 0 (by rfl)

/-- `PluginDirectory` (util.py lines 147-172): an extension of `ModuleType`
holding the filesystem path of the subsystem directory and the module
attribute table (`getattr`-visible bindings, as module ids).  The class
defines NO loaded flag and NO `__getattr__` hook; its `importer` reference is
passed explicitly to the iteration function below to keep the embedding free
of recursive structures. -/
structure PluginDirectory where
  pdName : String
  path : Option String
  attrs : List (String × Nat)
deriving DecidableEq

/-- `getattr(pd, modname)` on a `PluginDirectory`: `ModuleType` attribute
access is a plain namespace lookup (`none` models `AttributeError`); no
directory scan of any kind is triggered. -/
def getAttrPD (pd : PluginDirectory) (m : String) : Option Nat :=
  List.lookup m pd.attrs

/-- `PluginDirectory.__iter__` (util.py lines 159-172), applied to
`listing = os.listdir(self.path)` with `f` standing for `self.importer`:
for each file ending in `.py` other than `__init__.py`, yield
`getattr(self, modname)` when that attribute exists, otherwise yield
`self.importer.load_module(self.__name__ + "." + modname)` — a fresh load.
An importer error propagates out of the generator.  The directory object
itself is never modified by iteration. -/
def iterUnitsE (f : DyneFinder) (fs : FS) (pd : PluginDirectory)
    (listing : List String) (ist : ImportState) :
    Except String (List (String × Nat) × ImportState) :=
  match listing with
  | [] => Except.ok ([], ist)
  | file :: rest =>
    if strEnds file ".py" && file != "__init__.py" then
      let modname := strDropRight file 3
      match getAttrPD pd modname with
      | some mid =>
        match iterUnitsE f fs pd rest ist with
        | Except.ok (tl, ist1) => Except.ok ((modname, mid) :: tl, ist1)
        | Except.error e => Except.error e
      | none =>
        match f.load_module fs (pd.pdName ++ "." ++ modname) ist with
        | Except.ok (mid, ist1) =>
          match iterUnitsE f fs pd rest ist1 with
          | Except.ok (tl, ist2) => Except.ok ((modname, mid) :: tl, ist2)
          | Except.error e => Except.error e
        | Except.error e => Except.error e
    else
      iterUnitsE f fs pd rest ist

/-- The unit names `__iter__` considers, in listing order: files ending in
`.py` other than `__init__.py`, with the extension stripped. -/
def eligibleUnits (listing : List String) : List String :=
  (listing.filter (fun fl => strEnds fl ".py" && fl != "__init__.py")).map
    (fun fl => strDropRight fl 3)

/-- The yielded units of an enumeration outcome, `none` on error. -/
def unitsOf (r : Except String (List (String × Nat) × ImportState)) :
    Option (List (String × Nat)) :=
  match r with
  | Except.ok (u, _) => some u
  | Except.error _ => none

/-- Claim C5, amended: enumerating a subsystem directory yields its units in
filesystem listing order (not sorted), excluding exactly the directory
marker `__init__.py` and non-`.py` files — a unit named `init` (file
`init.py`) is NOT excluded, so a directory containing `foo.py`, `bar.py`
and `init.py` enumerates to `foo, bar, init`. -/
theorem C5_amended (f : DyneFinder) (fs : FS) (pd : PluginDirectory)
    (listing : List String) (ist : ImportState) (u : List (String × Nat))
    (h : unitsOf (iterUnitsE f fs pd listing ist) = some u) :
    u.map Prod.fst = eligibleUnits listing := by
  induction listing generalizing ist u with
  | nil =>
    simp [iterUnitsE, unitsOf] at h
    subst h
    simp [eligibleUnits]
  | cons file rest ih =>
    by_cases hc : (strEnds file ".py" && file != "__init__.py") = true
    · rw [iterUnitsE, if_pos hc] at h
      dsimp only at h
      cases hga : getAttrPD pd (strDropRight file 3) with
      | some mid =>
        rw [hga] at h
        dsimp only at h
        cases hrec : iterUnitsE f fs pd rest ist with
        | ok pr =>
          obtain ⟨tl, ist1⟩ := pr
          rw [hrec] at h
          dsimp only [unitsOf] at h
          rw [Option.some.injEq] at h
          subst h
          have htl : tl.map Prod.fst = eligibleUnits rest :=
            ih ist tl (by rw [hrec]; rfl)
          simp [eligibleUnits, List.filter_cons, hc] at htl ⊢
          exact htl
        | error e => rw [hrec] at h; simp [unitsOf] at h
      | none =>
        rw [hga] at h
        dsimp only at h
        cases hlm : DyneFinder.load_module f fs
            (pd.pdName ++ "." ++ strDropRight file 3) ist with
        | ok pr =>
          obtain ⟨mid, ist1⟩ := pr
          rw [hlm] at h
          dsimp only at h
          cases hrec : iterUnitsE f fs pd rest ist1 with
          | ok pr2 =>
            obtain ⟨tl, ist2⟩ := pr2
            rw [hrec] at h
            dsimp only [unitsOf] at h
            rw [Option.some.injEq] at h
            subst h
            have htl : tl.map Prod.fst = eligibleUnits rest :=
              ih ist1 tl (by rw [hrec]; rfl)
            simp [eligibleUnits, List.filter_cons, hc] at htl ⊢
            exact htl
          | error e => rw [hrec] at h; simp [unitsOf] at h
        | error e => rw [hlm] at h; simp [unitsOf] at h
    · rw [iterUnitsE, if_neg hc] at h
      have htl := ih ist u h
      have hcf : (strEnds file ".py" && file != "__init__.py") = false :=
        Bool.not_eq_true _ ▸ eq_false_of_ne_true hc
      simp [eligibleUnits, List.filter_cons, hcf] at htl ⊢
      exact htl

/-- A finder with no `PYTHONPATH` projects, resolving against the canonical
plugin path, for the C5 scenario. -/
def finderC5 : DyneFinder :=
  { plugin_path := "/pp", yaml_search_dict := [] }

/-- A filesystem whose subsystem directory holds the three unit files
`foo.py`, `bar.py`, `init.py`. -/
def fsC5 : FS :=
  ⟨[("/pp/org.funtoo.powerbus/system/foo.py", FileKind.regular),
    ("/pp/org.funtoo.powerbus/system/bar.py", FileKind.regular),
    ("/pp/org.funtoo.powerbus/system/init.py", FileKind.regular)]⟩

/-- The `PluginDirectory` for that subsystem, as `DyneFinder.load_module`
creates it: fresh, with an empty attribute table. -/
def pdC5 : PluginDirectory :=
  { pdName := "dyne.org.funtoo.powerbus.system",
    path := some "/pp/org.funtoo.powerbus/system",
    attrs := [] }

/-- Claim C5, counterexample: a directory listing `foo.py, bar.py, init.py`
enumerates to the units `foo, bar, init` — the reserved name `init` is NOT
excluded (only `__init__.py` is skipped), contradicting the claimed
enumeration `{foo, bar}`. -/
theorem C5_counterexample :
    unitsOf (iterUnitsE finderC5 fsC5 pdC5 ["foo.py", "bar.py", "init.py"]
        ⟨⟨0, []⟩, []⟩) =
      some [("foo", 0), ("bar", 1), ("init", 2)]
    ∧ eligibleUnits ["foo.py", "bar.py", "init.py"] = ["foo", "bar", "init"]
    ∧ List.map Prod.fst [(("foo" : String), (0 : Nat)), ("bar", 1), ("init", 2)] ≠
        ["foo", "bar"] := by
  refine ⟨by decide, by decide, by decide⟩

/-- Witness for `C5_amended` at the directory of the counterexample. -/
theorem C5_amended_witness :
    List.map Prod.fst [(("foo" : String), (0 : Nat)), ("bar", 1), ("init", 2)] =
      eligibleUnits ["foo.py", "bar.py", "init.py"] :=
  C5_amended finderC5 fsC5 pdC5 ["foo.py", "bar.py", "init.py"] ⟨⟨0, []⟩, []⟩
    [("foo", 0), ("bar", 1), ("init", 2)] (by decide)

theorem eligibleUnits_cons (file : String) (rest : List String) :
    eligibleUnits (file :: rest) =
      if (strEnds file ".py" && file != "__init__.py") = true
      then strDropRight file 3 :: eligibleUnits rest
      else eligibleUnits rest := by
  simp only [eligibleUnits, List.filter_cons]
  split <;> simp

theorem iterUnits_all_cached (f : DyneFinder) (fs : FS) (pd : PluginDirectory) :
    ∀ (listing : List String) (ist : ImportState),
      (∀ m ∈ eligibleUnits listing, (getAttrPD pd m).isSome = true) →
      iterUnitsE f fs pd listing ist =
        Except.ok ((eligibleUnits listing).filterMap
          (fun m => (getAttrPD pd m).map (fun v => (m, v))), ist) := by
  intro listing
  induction listing with
  | nil => intro ist _; simp [iterUnitsE, eligibleUnits]
  | cons file rest ih =>
    intro ist hall
    by_cases hc : (strEnds file ".py" && file != "__init__.py") = true
    · have hmem : strDropRight file 3 ∈ eligibleUnits (file :: rest) := by
        rw [eligibleUnits_cons, if_pos hc]
        exact List.mem_cons_self _ _
      obtain ⟨v, hv⟩ := Option.isSome_iff_exists.mp (hall _ hmem)
      have hall' : ∀ m ∈ eligibleUnits rest, (getAttrPD pd m).isSome = true := by
        intro m hm
        apply hall
        rw [eligibleUnits_cons, if_pos hc]
        exact List.mem_cons_of_mem _ hm
      rw [iterUnitsE, if_pos hc]
      dsimp only
      rw [hv]
      dsimp only
      rw [ih ist hall']
      rw [eligibleUnits_cons, if_pos hc]
      simp [List.filterMap_cons, hv]
    · have hall' : ∀ m ∈ eligibleUnits rest, (getAttrPD pd m).isSome = true := by
        intro m hm
        apply hall
        rw [eligibleUnits_cons, if_neg hc]
        exact hm
      rw [iterUnitsE, if_neg hc, ih ist hall', eligibleUnits_cons, if_neg hc]

/-- Claim C1, amended: `PluginDirectory` carries no loaded flag and installs
no attribute hook — a named get is a plain lookup in the module attribute
table (failing with `AttributeError` when the name is uncached, and never
triggering a scan), while each enumeration walks the directory listing anew:
units present in the attribute table are yielded from it without loading (a
fully cached directory is enumerated with the interpreter state untouched),
and uncached units are loaded through the importer afresh on every
enumeration. -/
theorem C1_amended (f : DyneFinder) (fs : FS) (pd : PluginDirectory)
    (listing : List String) (ist : ImportState)
    (hall : ∀ m ∈ eligibleUnits listing, (getAttrPD pd m).isSome = true) :
    (∀ m, getAttrPD pd m = List.lookup m pd.attrs)
    ∧ iterUnitsE f fs pd listing ist =
        Except.ok ((eligibleUnits listing).filterMap
          (fun m => (getAttrPD pd m).map (fun v => (m, v))), ist) :=
  ⟨fun _ => rfl, iterUnits_all_cached f fs pd listing ist hall⟩

/-- A finder with no `PYTHONPATH` projects, for the C1 scenario. -/
def finderC1 : DyneFinder :=
  { plugin_path := "/pp", yaml_search_dict := [] }

/-- A filesystem whose subsystem directory holds the one unit file
`foo.py`. -/
def fsC1 : FS :=
  ⟨[("/pp/org.funtoo.powerbus/system/foo.py", FileKind.regular)]⟩

/-- The freshly imported `PluginDirectory` for that subsystem: empty
attribute table, exactly as `DyneFinder.load_module` creates it. -/
def pdFreshC1 : PluginDirectory :=
  { pdName := "dyne.org.funtoo.powerbus.system",
    path := some "/pp/org.funtoo.powerbus/system",
    attrs := [] }

/-- Interpreter state after the first enumeration of `pdFreshC1`: one
execution of `foo.py` has happened. -/
def istC1one : ImportState :=
  { ls := { nextId := 1, execLog := ["/pp/org.funtoo.powerbus/system/foo.py"] },
    sysModules := [("dyne.org.funtoo.powerbus.system.foo", 0)] }

/-- Interpreter state after the second enumeration of `pdFreshC1`: `foo.py`
has been executed a second time. -/
def istC1two : ImportState :=
  { ls := { nextId := 2,
            execLog := ["/pp/org.funtoo.powerbus/system/foo.py",
                        "/pp/org.funtoo.powerbus/system/foo.py"] },
    sysModules := [("dyne.org.funtoo.powerbus.system.foo", 1),
                   ("dyne.org.funtoo.powerbus.system.foo", 0)] }

/-- Claim C1, counterexample: on a fresh `PluginDirectory` over a directory
containing `foo.py`, (i) a named get returns `AttributeError` without
triggering any scan or load, and (ii) a first enumeration loads `foo`
(executing its source), after which the directory is NOT marked loaded: a
second enumeration from the resulting state rescans, re-executes `foo.py`
(the log shows two executions) and yields a different module object (id 1,
not the cached id 0). -/
theorem C1_counterexample :
    getAttrPD pdFreshC1 "foo" = none
    ∧ iterUnitsE finderC1 fsC1 pdFreshC1 ["foo.py"] ⟨⟨0, []⟩, []⟩ =
        Except.ok ([("foo", 0)], istC1one)
    ∧ iterUnitsE finderC1 fsC1 pdFreshC1 ["foo.py"] istC1one =
        Except.ok ([("foo", 1)], istC1two)
    ∧ istC1two.ls.execLog =
        ["/pp/org.funtoo.powerbus/system/foo.py",
         "/pp/org.funtoo.powerbus/system/foo.py"] := by
  exact ⟨rfl, by rfl, by rfl, rfl⟩

/-- A `PluginDirectory` whose single unit `foo` is already cached in the
attribute table (as after `import dyne...system.foo` bound it there). -/
def pdCachedC1 : PluginDirectory :=
  { pdName := "dyne.org.funtoo.powerbus.system",
    path := some "/pp/org.funtoo.powerbus/system",
    attrs := [("foo", 7)] }

/-- Witness for `C1_amended`: enumerating a fully cached directory yields the
cached unit and leaves the interpreter state untouched, and the named get is
the attribute lookup. -/
theorem C1_amended_witness :
    (∀ m ∈ eligibleUnits ["foo.py"], (getAttrPD pdCachedC1 m).isSome = true)
    ∧ getAttrPD pdCachedC1 "foo" = List.lookup "foo" pdCachedC1.attrs
    ∧ iterUnitsE finderC1 fsC1 pdCachedC1 ["foo.py"] ⟨⟨5, []⟩, []⟩ =
        Except.ok ([("foo", 7)], ⟨⟨5, []⟩, []⟩) :=
  ⟨by decide,
   (C1_amended finderC1 fsC1 pdCachedC1 ["foo.py"] ⟨⟨5, []⟩, []⟩ (by decide)).1 "foo",
   (C1_amended finderC1 fsC1 pdCachedC1 ["foo.py"] ⟨⟨5, []⟩, []⟩ (by decide)).2⟩

/-- The caller information `Hub.__getattr__` extracts from
`inspect.stack()[1]`: the resolved filename of the caller and the enclosing
function name. -/
structure CallerFrame where
  filename : String
  func : String
deriving DecidableEq

/-- `Hub.__getattr__` (hub.py lines 251-256).  The Hub is a `dict` and
`__setattr__` stores every attribute in it, so the registry is the dict
itself (values abstracted to ids); attribute access on a missing key raises
`AttributeError` whose message embeds the caller location, otherwise the
stored value is returned.  `Except.error` models the raised exception. -/
def Hub.getattrM (d : List (String × Nat)) (frame : CallerFrame)
    (name : String) : Except String Nat :=
  match List.lookup name d with
  | none =>
    Except.error (frame.filename ++ ", in " ++ frame.func ++ "(): hub."
      ++ name ++ " is not defined.")
  | some v => Except.ok v

/-- Claim C8: for a key never registered on the Hub, attribute access fails
with the `AttributeError` whose message carries the caller location (and in
particular never produces a value), while for a registered key it returns
exactly the stored value. -/
theorem C8_getattr (d : List (String × Nat)) (frame : CallerFrame)
    (name : String) :
    (List.lookup name d = none →
      Hub.getattrM d frame name =
        Except.error (frame.filename ++ ", in " ++ frame.func ++ "(): hub."
          ++ name ++ " is not defined."))
    ∧ (∀ v, List.lookup name d = none → Hub.getattrM d frame name ≠ Except.ok v)
    ∧ (∀ v, List.lookup name d = some v → Hub.getattrM d frame name = Except.ok v) := by
  refine ⟨?_, ?_, ?_⟩
  · intro h
    unfold Hub.getattrM
    rw [h]
  · intro v h
    unfold Hub.getattrM
    rw [h]
    exact fun hc => Except.noConfusion hc
  · intro v h
    unfold Hub.getattrM
    rw [h]

/-- Witness for `C8_getattr`: a missing key on an empty Hub yields the
diagnostic `AttributeError`, and a registered key yields its stored value. -/
theorem C8_getattr_witness :
    Hub.getattrM [] ⟨"/app/main.py", "main"⟩ "nope" =
      Except.error "/app/main.py, in main(): hub.nope is not defined."
    ∧ Hub.getattrM [("release", 5)] ⟨"/app/main.py", "main"⟩ "release" =
        Except.ok 5 :=
  ⟨(C8_getattr [] ⟨"/app/main.py", "main"⟩ "nope").1 rfl,
   (C8_getattr [("release", 5)] ⟨"/app/main.py", "main"⟩ "release").2.2 5 rfl⟩

/-- Modelled from the spec: the `DeferredModel` described in spec §3 and
§4.6 is not present under `src/` (the shipped `hub.py` defines neither
`DeferredModel` nor `setModel`/`getModel`, although the spec and the model
test refer to them).  A deferred model is bound to exactly one subsystem
key, starts unresolved with no fields, and carries its object identity. -/
structure DeferredModel where
  subsystem : String
  resolved : Bool
  fields : List (String × Nat)
  instanceId : Nat
deriving DecidableEq

/-- Modelled from the spec: the Hub state relevant to configuration models
(spec §3, §4.5) — `subsystem → model` for explicitly set configuration
objects (a model abstracted to its field table), `subsystem → DeferredModel`
for the memoized proxies, and the allocation counter giving object
identities.  Both tables cons fresh bindings in front so `List.lookup` sees
the latest assignment. -/
structure HubM where
  models : List (String × List (String × Nat))
  deferred : List (String × DeferredModel)
  nextId : Nat
deriving DecidableEq

/-- Modelled from the spec: `setModel(subsystem, model)` (spec §4.5) records
the configuration object to be handed out by `getModel`. -/
def HubM.setModel (h : HubM) (s : String) (m : List (String × Nat)) : HubM :=
  { h with models := (s, m) :: h.models }

/-- Modelled from the spec: `getModel(subsystem)` (spec §4.5) returns the
same `DeferredModel` instance on every call for a given subsystem —
constructed once (unresolved, empty, fresh identity) and memoized. -/
def HubM.getModel (h : HubM) (s : String) : DeferredModel × HubM :=
  match List.lookup s h.deferred with
  | some dm => (dm, h)
  | none =>
    let dm : DeferredModel :=
      { subsystem := s, resolved := false, fields := [], instanceId := h.nextId }
    (dm, { h with deferred := (s, dm) :: h.deferred, nextId := h.nextId + 1 })

/-- Modelled from the spec: resolution of a `DeferredModel` (spec §4.6) —
in `Unresolved`, copy the fields of the Hub registered model for the bound
subsystem (or remain empty if none was ever set) and become resolved;
resolving again is a no-op. -/
def DeferredModel.resolveDM (dm : DeferredModel) (h : HubM) : DeferredModel :=
  if dm.resolved then dm
  else
    { dm with
      resolved := true
      fields := (List.lookup dm.subsystem h.models).getD [] }

/-- Modelled from the spec: a field read on the subsystem deferred model
(spec §4.6) — the first read triggers resolution and the resolved instance
replaces the memoized one; a missing field after resolution fails with
`NotFoundError` naming the subsystem. -/
def HubM.fieldAccess (h : HubM) (s fname : String) : Except String (Nat × HubM) :=
  let p := h.getModel s
  let dm2 := p.1.resolveDM p.2
  let h2 := { p.2 with deferred := (s, dm2) :: p.2.deferred }
  match List.lookup fname dm2.fields with
  | some v => Except.ok (v, h2)
  | none =>
    Except.error ("NotFoundError: no field " ++ fname ++ " on model for "
      ++ s ++ "; register a model for it.")

/-- Claim C9 (over the spec-modelled Hub model registry): after
`setModel s M` on a hub with no deferred model yet for `s`, the first field
access on `getModel s` resolves the deferred model to fields equal to `M`
and yields `M`'s value for the accessed field, and every later `getModel s`
returns the same instance (same identity as the one first handed out),
already resolved, memoized unchanged. -/
theorem C9_deferred_model (h : HubM) (s fname : String)
    (M : List (String × Nat)) (v : Nat)
    (hd : List.lookup s h.deferred = none)
    (hf : List.lookup fname M = some v) :
    ∃ h3 : HubM,
      (h.setModel s M).fieldAccess s fname = Except.ok (v, h3)
      ∧ ((h3.getModel s).1).instanceId =
          (((h.setModel s M).getModel s).1).instanceId
      ∧ ((h3.getModel s).1).resolved = true
      ∧ ((h3.getModel s).1).fields = M
      ∧ (h3.getModel s).2 = h3 := by
  refine ⟨{ models := (s, M) :: h.models,
            deferred := (s, ⟨s, true, M, h.nextId⟩)
              :: (s, ⟨s, false, [], h.nextId⟩) :: h.deferred,
            nextId := h.nextId + 1 }, ?_, ?_, ?_, ?_, ?_⟩ <;>
    simp [HubM.fieldAccess, HubM.getModel, DeferredModel.resolveDM,
      HubM.setModel, List.lookup, hd, hf]

/-- Witness for `C9_deferred_model` on an empty hub, subsystem `s`, model
with single field `x = 5`. -/
theorem C9_deferred_model_witness :
    List.lookup "s" (HubM.mk [] [] 0).deferred = none
    ∧ List.lookup "x" [(("x" : String), (5 : Nat))] = some 5
    ∧ ∃ h3 : HubM,
        ((HubM.mk [] [] 0).setModel "s" [("x", 5)]).fieldAccess "s" "x" =
          Except.ok (5, h3)
        ∧ ((h3.getModel "s").1).instanceId =
            ((((HubM.mk [] [] 0).setModel "s" [("x", 5)]).getModel "s").1).instanceId
        ∧ ((h3.getModel "s").1).resolved = true
        ∧ ((h3.getModel "s").1).fields = [("x", 5)]
        ∧ (h3.getModel "s").2 = h3 :=
  ⟨rfl, rfl, C9_deferred_model ⟨[], [], 0⟩ "s" "x" [("x", 5)] 5 rfl rfl⟩
